import Mathlib

/-!
Shallow embedding of `src/github_skills_analyzer.py` (GitHub Skills Analyzer)
and verification of the frozen claims about it.

Conventions of the embedding:
* Python strings are modelled as `List Char` (so that length, substring
  search and per-character maps are structural); short fixed strings such
  as dictionary keys stay `String`.
* Python floats are modelled as `ℚ`; the numeric literals of the source
  (0.1, 0.2, 0.3, 10, ...) become the corresponding rationals.
* A Python `Counter` built by repeated `counter[k] += 1` is modelled as an
  association list `List (String × Nat)` in first-insertion order, which is
  the iteration order `Counter.most_common` breaks ties by.
* Fallible calls return `Option`; a propagating Python exception is the
  `Except.error` branch of `Except PyExn`.
-/

/-- Python exceptions that the embedded code can raise. -/
inductive PyExn where
  | valueError
  | overflowError
  | requestException
  deriving DecidableEq, Repr

/-- A minimal JSON value model for decoded response bodies. -/
inductive PyJson where
  | null
  | bool (b : Bool)
  | num (q : ℚ)
  | str (s : String)
  | arr (l : List PyJson)
  | obj (l : List (String × PyJson))

/-- Python truthiness of a JSON value: `None`, `False`, `0`, `""`, `[]`,
and the empty object are falsy, everything else truthy. -/
def PyJson.truthy : PyJson → Bool
  | .null => false
  | .bool b => b
  | .num q => decide (q ≠ 0)
  | .str s => !s.isEmpty
  | .arr l => !l.isEmpty
  | .obj l => !l.isEmpty

/-- ASCII lowercasing of one character, modelling `str.lower()` on the
ASCII inputs this program manipulates. -/
def pyLowerChar (c : Char) : Char :=
  if 'A' ≤ c ∧ c ≤ 'Z' then Char.ofNat (c.toNat + 32) else c

/-- ASCII uppercasing of one character, modelling `str.upper()`. -/
def pyUpperChar (c : Char) : Char :=
  if 'a' ≤ c ∧ c ≤ 'z' then Char.ofNat (c.toNat - 32) else c

/-- Lowercase a string, modelling `s.lower()` for ASCII content. -/
def pyLower (s : String) : String :=
  String.mk (s.toList.map pyLowerChar)

/-- Is `c` an ASCII decimal digit. -/
def isAsciiDigit (c : Char) : Bool :=
  decide ('0' ≤ c) && decide (c ≤ '9')

/-- One-or-more ASCII digits. -/
def allDigits : List Char → Bool
  | [] => false
  | l => l.all isAsciiDigit

/-- Value of an ASCII digit run. -/
def digitsToNat (l : List Char) : Nat :=
  l.foldl (fun acc c => acc * 10 + (c.toNat - '0'.toNat)) 0

/-- The value Python `int(...)` gives a string: optional surrounding
spaces, an optional sign, then one or more decimal digits; `none` when
the string does not parse, in which case `int` raises `ValueError`. -/
def pyIntValue (s : String) : Option ℤ :=
  let l := ((s.toList.dropWhile (· = ' ')).reverse.dropWhile (· = ' ')).reverse
  match l with
  | '+' :: rest => if allDigits rest then some (digitsToNat rest : ℤ) else none
  | '-' :: rest => if allDigits rest then some (-(digitsToNat rest : ℤ)) else none
  | _ => if allDigits l then some (digitsToNat l : ℤ) else none

/-- Does the string parse under Python `int(...)`. -/
def pyIntParses (s : String) : Bool :=
  (pyIntValue s).isSome

/-- An HTTP response as far as `_make_request` inspects it. `body` is the
decoded JSON value, or `none` when the body is not valid JSON (in which
case `response.json()` raises `requests.exceptions.JSONDecodeError`, a
`RequestException`). The two rate-limit headers are carried verbatim;
`none` means the header is absent, in which case `headers.get` supplies
the integer default `0`. -/
structure HttpResponse where
  statusOk : Bool
  rateLimitRemaining : Option String
  rateLimitReset : Option String
  body : Option PyJson

/-- Outcome of `self.session.get(url)`: either the transport raised a
`requests.exceptions.RequestException`, or a response arrived. -/
inductive GetOutcome where
  | netError
  | response (r : HttpResponse)

/-- Header lookup `response.headers.get(name, 0)` followed by `int(...)`:
an absent header gives the integer default `0`; a present header is a
string that must parse as an integer, else `int` raises `ValueError`
(the `none` result). -/
def headerIntVal : Option String → Option ℤ
  | none => some 0
  | some s => pyIntValue s

/-- Does `datetime.fromtimestamp` accept the timestamp without raising.
CPython raises `ValueError`/`OverflowError` when the timestamp falls
outside the representable datetime years 1 to 9999 (or outside the
platform C `localtime` range); on the 64-bit Linux/macOS CPython this
program targets, the accepted set is the full year range shifted by the
local timezone.  Modelled as the UTC year-1-to-9999 epoch range shrunk
by two days at each end, a timezone-independent subset of every such
platform accepted set; values outside it raise on every platform. -/
def fromtimestampOk (n : ℤ) : Bool :=
  decide (-62135424000 ≤ n) && decide (n ≤ 253402127999)

/-- Embedding of `GitHubAnalyzer._make_request`.  The `try` block covers
`session.get`, `raise_for_status` and `response.json()`; the `except`
clause catches only `requests.exceptions.RequestException` and returns
`None`.  The rate-limit bookkeeping between them converts each header
with `int(...)`, which raises an uncaught `ValueError` on a malformed
header value, and when the remaining quota is below 10 it calls
`datetime.fromtimestamp(reset_time)`, which raises an uncaught
`OverflowError`/`ValueError` on an out-of-range timestamp.  Result:
`Except.ok` of the returned value (`some` body or `none`), or
`Except.error` for an exception escaping to the caller. -/
def makeRequest : GetOutcome → Except PyExn (Option PyJson)
  | .netError => .ok none
  | .response r =>
    if !r.statusOk then .ok none
    else
      match headerIntVal r.rateLimitRemaining with
      | none => .error .valueError
      | some remaining =>
        match headerIntVal r.rateLimitReset with
        | none => .error .valueError
        | some resetTime =>
          if remaining < 10 then
            if fromtimestampOk resetTime then .ok r.body
            else .error .overflowError
          else .ok r.body

/-- A repository record as far as the analyzer reads it.  `isPrivate` is
`none` when the `private` key is missing, in which case `r.get('private',
True)` defaults to `True`; `updated_at` is `none` when the key is missing
or null. -/
structure RepoInfo where
  name : String
  fork : Bool
  isPrivate : Option Bool
  updatedAt : Option String
  deriving DecidableEq, Repr

/-- Structure for collaboration metrics (`CollaborationData`). -/
structure CollaborationData where
  pull_requests_created : Nat
  pull_requests_reviewed : Nat
  issues_created : Nat
  issues_commented : Nat
  repos_contributed_to : Nat
  collaboration_score : ℚ
  deriving DecidableEq, Repr

/-- The `r.get('private', True)` lookup. -/
def RepoInfo.privateDefaultTrue (r : RepoInfo) : Bool :=
  r.isPrivate.getD true

/-- Embedding of `GitHubAnalyzer.analyze_collaboration_patterns`:
`total_repos = len(repos)`, `public_repos` counts repositories whose
`private` field (defaulting to `True`) is false, `forked_repos` counts
`fork == True`, `original_repos = public_repos - forked_repos` (a Python
int, possibly negative), and the score is
`min((forked*0.1 + original*0.3) / max(total, 1), 1.0)`. -/
def analyzeCollaborationPatterns (repos : List RepoInfo) : CollaborationData :=
  let totalRepos : Nat := repos.length
  let publicRepos : Nat := (repos.filter (fun r => !r.privateDefaultTrue)).length
  let forkedRepos : Nat := (repos.filter (fun r => r.fork)).length
  let originalRepos : ℤ := (publicRepos : ℤ) - (forkedRepos : ℤ)
  let score : ℚ :=
    min (((forkedRepos : ℚ) * (1/10) + (originalRepos : ℚ) * (3/10)) / (max totalRepos 1 : ℚ)) 1
  { pull_requests_created := 0
    pull_requests_reviewed := 0
    issues_created := 0
    issues_commented := 0
    repos_contributed_to := forkedRepos
    collaboration_score := score }

/-- Truthiness of `r.get('updated_at')`: the key must be present and its
string non-empty. -/
def RepoInfo.hasUpdatedAt (r : RepoInfo) : Bool :=
  match r.updatedAt with
  | none => false
  | some s => !s.isEmpty

/-- The sort key `lambda x: x['updated_at']` used on the filtered list. -/
def RepoInfo.updateKey (r : RepoInfo) : String :=
  r.updatedAt.getD ""

/-- Embedding of the selection step of
`GitHubAnalyzer.analyze_repository_activity`:
`active_repos = [r for r in repos if r.get('updated_at')]`,
`active_repos.sort(key=..., reverse=True)` (a stable sort producing
descending key order with ties kept in original order), then
`active_repos[:20]`. -/
def selectActiveRepositories (repos : List RepoInfo) : List RepoInfo :=
  (((repos.filter RepoInfo.hasUpdatedAt).mergeSort
      (fun a b => decide (b.updateKey ≤ a.updateKey))).take 20)

/-- Does `needle` occur as a contiguous run inside `hay`, modelling the
Python substring test `needle in hay`. -/
def containsSub (needle : List Char) : List Char → Bool
  | [] => needle.isEmpty
  | c :: rest => needle.isPrefixOf (c :: rest) || containsSub needle rest

/-- Number of occurrences of a character, modelling `s.count(c)`. -/
def countChar (c : Char) (l : List Char) : Nat :=
  (l.filter (· = c)).length

/-- Condition 1 of the README score: `len(content) > 500`. -/
def readmeLongEnough (content : List Char) : Bool :=
  decide (500 < content.length)

/-- Condition 2: `'installation' in content_lower or 'setup' in content_lower`. -/
def readmeHasInstall (content : List Char) : Bool :=
  containsSub "installation".toList (content.map pyLowerChar) ||
    containsSub "setup".toList (content.map pyLowerChar)

/-- Condition 3: `'usage' in content_lower or 'example' in content_lower`. -/
def readmeHasUsage (content : List Char) : Bool :=
  containsSub "usage".toList (content.map pyLowerChar) ||
    containsSub "example".toList (content.map pyLowerChar)

/-- Condition 4: a fenced code block marker in the raw content. -/
def readmeHasCodeBlock (content : List Char) : Bool :=
  containsSub "```".toList content

/-- Condition 5: `content.count('#') >= 3`. -/
def readmeHasSections (content : List Char) : Bool :=
  decide (3 ≤ countChar '#' content)

/-- Embedding of `GitHubAnalyzer._score_readme_quality`: empty content
returns 0.0 at once; otherwise each of the five conditions adds 0.2 and
the sum is passed through `min(score, 1.0)`. -/
def scoreReadmeQuality (content : List Char) : ℚ :=
  if content.isEmpty then 0
  else
    let s1 : ℚ := if readmeLongEnough content then 0 + 2/10 else 0
    let s2 : ℚ := if readmeHasInstall content then s1 + 2/10 else s1
    let s3 : ℚ := if readmeHasUsage content then s2 + 2/10 else s2
    let s4 : ℚ := if readmeHasCodeBlock content then s3 + 2/10 else s3
    let s5 : ℚ := if readmeHasSections content then s4 + 2/10 else s4
    min s5 1

/-- How many of the five README conditions hold. -/
def readmeCondCount (content : List Char) : Nat :=
  (if readmeLongEnough content then 1 else 0) +
    (if readmeHasInstall content then 1 else 0) +
    (if readmeHasUsage content then 1 else 0) +
    (if readmeHasCodeBlock content then 1 else 0) +
    (if readmeHasSections content then 1 else 0)

/-- The extension-usage `Counter` in first-insertion order with one entry
per key. -/
abbrev Tally := List (String × Nat)

/-- `counter[k] += 1`: bump the existing entry or append a fresh one. -/
def tallyAdd : Tally → String → Tally
  | [], k => [(k, 1)]
  | (k', c) :: rest, k =>
    if k' = k then (k', c + 1) :: rest else (k', c) :: tallyAdd rest k

/-- `Counter.most_common(n)`: items sorted by count descending, ties in
iteration (insertion) order, truncated to `n`.  The stable descending
sort mirrors `sorted(items, key=itemgetter(1), reverse=True)[:n]`. -/
def mostCommon (n : Nat) (t : Tally) : Tally :=
  (t.mergeSort (fun a b => decide (b.2 ≤ a.2))).take n

/-- `language_usage.most_common(1)[0][1] if language_usage else 1`. -/
def maxCount (t : Tally) : Nat :=
  match mostCommon 1 t with
  | [] => 1
  | x :: _ => x.2

/-- `sum(language_usage.values())`, which the source binds to the
(misnamed) variable `total_commits`. -/
def sumTally (t : Tally) : Nat :=
  (t.map (·.2)).sum

/-- The experience-level thresholds of `_parse_ai_response`:
`< 50` Junior, `< 200` Mid-level, otherwise Senior, measured on
`sum(language_usage.values())`. -/
def experienceLevelOf (t : Tally) : String :=
  if sumTally t < 50 then "Junior"
  else if sumTally t < 200 then "Mid-level"
  else "Senior"

/-- Round-half-to-even on a rational, the rounding Python `round` uses. -/
def roundHalfEven (q : ℚ) : ℤ :=
  if q - ⌊q⌋ < 1/2 then ⌊q⌋
  else if (1:ℚ)/2 < q - ⌊q⌋ then ⌊q⌋ + 1
  else if ⌊q⌋ % 2 = 0 then ⌊q⌋ else ⌊q⌋ + 1

/-- Python `round(x, 1)`. -/
def pyRound1 (x : ℚ) : ℚ :=
  (roundHalfEven (x * 10) : ℚ) / 10

/-- The fixed denylist `excluded_extensions` of `_parse_ai_response`. -/
def excludedExtensions : List String :=
  ["json", "xml", "yaml", "yml", "toml", "ini", "cfg", "conf",
   "png", "jpg", "jpeg", "gif", "svg", "ico", "bmp", "webp",
   "pdf", "doc", "docx", "txt", "rtf",
   "md", "rst", "html", "htm",
   "csv", "tsv", "xlsx", "xls",
   "zip", "tar", "gz", "rar", "7z",
   "log", "tmp", "cache", "lock",
   "gitignore", "gitkeep", "env", "example"]

/-- The technical-skills loop of `_parse_ai_response`: iterate
`most_common(10)`, skip entries whose lowercased key is denylisted, and
map each kept key to `round(min(10, count / max_count * 10), 1)` keeping
iteration order. -/
def parseTechnicalSkills (t : Tally) : List (String × ℚ) :=
  (mostCommon 10 t).foldl
    (fun acc p =>
      if excludedExtensions.contains (pyLower p.1) then acc
      else acc ++ [(p.1, pyRound1 (min 10 ((p.2 : ℚ) / (maxCount t : ℚ) * 10)))])
    []

/-- Python `str.strip()` on the whitespace the analyzer meets. -/
def pyStrip (l : List Char) : List Char :=
  let ws : Char → Bool := fun c =>
    c = ' ' || c = '\t' || c = '\n' || c = '\r'
  ((l.dropWhile ws).reverse.dropWhile ws).reverse

/-- Which bullet-list section of the reply lines are currently collected
into. -/
inductive ReplySection where
  | strengthsSec
  | improvementsSec
  deriving DecidableEq, Repr

/-- One step of the line scanner of `_parse_ai_response`: update the
current section on a marker line, else append a bullet line body (two
characters stripped) to the active list.  State: current section,
strengths so far, improvements so far. -/
def scanLine (st : Option ReplySection × List (List Char) × List (List Char))
    (rawLine : List Char) :
    Option ReplySection × List (List Char) × List (List Char) :=
  let line := pyStrip rawLine
  let upper := line.map pyUpperChar
  if containsSub "STRENGTHS".toList upper then
    (some .strengthsSec, st.2.1, st.2.2)
  else if containsSub "IMPROVEMENT".toList upper || containsSub "AREAS".toList upper then
    (some .improvementsSec, st.2.1, st.2.2)
  else if "- ".toList.isPrefixOf line || "‚Ä¢ ".toList.isPrefixOf line then
    match st.1 with
    | some .strengthsSec => (st.1, st.2.1 ++ [line.drop 2], st.2.2)
    | some .improvementsSec => (st.1, st.2.1, st.2.2 ++ [line.drop 2])
    | none => st
  else st

/-- The strengths and improvement lists scanned from the reply text:
split on newlines, then fold `scanLine` from an unset section. -/
def scanSections (analysisText : List Char) : List (List Char) × List (List Char) :=
  ((analysisText.splitOn '\n').foldl scanLine (none, [], [])).2

/-- AI-generated skill assessment (`SkillAssessment`).  The
`technical_skills` dict and the `specializations` list keep insertion
order; specializations are the raw `(extension, count)` pairs that
`list(Counter.most_common(n))` yields. -/
structure SkillAssessment where
  technical_skills : List (String × ℚ)
  strengths : List (List Char)
  improvement_areas : List (List Char)
  experience_level : String
  specializations : List (String × Nat)
  learning_style : String
  confidence_score : ℚ

/-- Embedding of `AISkillsAnalyzer._parse_ai_response`. -/
def parseAiResponse (analysisText : List Char) (languageUsage : Tally) :
    SkillAssessment :=
  let scanned := scanSections analysisText
  { technical_skills := parseTechnicalSkills languageUsage
    strengths := scanned.1.take 5
    improvement_areas := scanned.2.take 5
    experience_level := experienceLevelOf languageUsage
    specializations := mostCommon 3 languageUsage
    learning_style := "Inferred from commit patterns"
    confidence_score := 8/10 }

/-- Embedding of `AISkillsAnalyzer._create_fallback_assessment`. -/
def createFallbackAssessment (languageUsage : Tally) : SkillAssessment :=
  { technical_skills :=
      (mostCommon 5 languageUsage).map
        (fun p => (p.1, min 10 ((p.2 : ℚ) / 10)))
    strengths := ["Active contributor".toList, "Multi-language experience".toList]
    improvement_areas := ["Detailed analysis requires OpenAI API".toList]
    experience_level := "Unable to determine"
    specializations := mostCommon 2 languageUsage
    learning_style := "Unable to determine"
    confidence_score := 3/10 }

/-- Structure for commit information (`CommitData`).  The date is kept as
its ISO string; the report generator never reads it. -/
structure CommitData where
  sha : String
  message : String
  dateIso : String
  additions : Nat
  deletions : Nat
  files_changed : List String
  repo_name : String
  deriving DecidableEq, Repr

/-- File-extension extraction of `analyze_commits`:
`file.split('.')[-1].lower() if '.' in file else 'unknown'`. -/
def extOf (file : String) : String :=
  if file.toList.contains '.' then
    pyLower (String.mk ((file.toList.splitOn '.').getLastD []))
  else "unknown"

/-- The overall `language_usage` Counter of `analyze_commits`: for each of
the first 100 commits, bump the tally at the extension of every changed
file. -/
def languageUsageOf (commits : List CommitData) : Tally :=
  (commits.take 100).foldl
    (fun t c => c.files_changed.foldl (fun t' f => tallyAdd t' (extOf f)) t)
    []

/-- Structure for repository information (`RepositoryData`), as the report
carries it. -/
structure RepositoryData where
  name : String
  language : String
  stars : Nat
  description : String
  createdAt : String
  updatedAt : String
  size : Nat
  has_readme : Bool
  readme_quality_score : ℚ

/-- One learning-recommendation block. -/
structure Recommendation where
  category : String
  priority : String
  items : List String

/-- Embedding of `ReportGenerator._generate_learning_recommendations`. -/
def generateLearningRecommendations (skills : SkillAssessment) : List Recommendation :=
  (if !skills.improvement_areas.isEmpty then
    [{ category := "Technical Skills Development"
       priority := "High"
       items := (skills.improvement_areas.take 3).map
         (fun a => "Focus on: " ++ String.mk a) }]
   else []) ++
  (if skills.experience_level = "Junior" then
    [{ category := "Foundation Building"
       priority := "High"
       items := ["Master version control best practices",
                 "Learn test-driven development",
                 "Study software design patterns",
                 "Practice code review skills"] }]
   else if skills.experience_level = "Mid-level" then
    [{ category := "Advanced Development"
       priority := "Medium"
       items := ["Explore system architecture patterns",
                 "Contribute to open source projects",
                 "Mentor junior developers",
                 "Learn about DevOps practices"] }]
   else []) ++
  [{ category := "Communication & Documentation"
     priority := "Medium"
     items := ["Improve README quality with examples",
               "Write technical blog posts",
               "Create architecture decision records",
               "Practice explaining complex concepts simply"] }]

/-- Python `max(commits, key=lambda c: c.additions)`: the first commit
whose additions count is maximal; `max` on an empty list would raise, the
call site guards with `if commits else None`. -/
def maxByAdditions : List CommitData → Option CommitData
  | [] => none
  | c :: cs => some (cs.foldl (fun best x => if best.additions < x.additions then x else best) c)

/-- The `activity_summary` object of the JSON report. -/
structure ActivitySummary where
  total_commits : Nat
  total_additions : Nat
  total_deletions : Nat
  active_repositories : Nat
  most_active_repo : Option String
  deriving DecidableEq, Repr

/-- The structured report of `ReportGenerator.generate_json_report`.  The
analysis timestamp is a free parameter of the generator below. -/
structure Report where
  metadata_username : String
  metadata_analysis_date : String
  metadata_commits_analyzed : Nat
  metadata_repositories_analyzed : Nat
  profile : PyJson
  activity_summary : ActivitySummary
  technical_skills : SkillAssessment
  repository_analysis : List RepositoryData
  collaboration_metrics : CollaborationData
  learning_recommendations : List Recommendation

/-- Embedding of `ReportGenerator.generate_json_report`. -/
def generateJsonReport (username analysisDate : String) (profile : PyJson)
    (commits : List CommitData) (repos : List RepositoryData)
    (collaboration : CollaborationData) (skills : SkillAssessment) : Report :=
  { metadata_username := username
    metadata_analysis_date := analysisDate
    metadata_commits_analyzed := commits.length
    metadata_repositories_analyzed := repos.length
    profile := profile
    activity_summary :=
      { total_commits := commits.length
        total_additions := (commits.map (·.additions)).sum
        total_deletions := (commits.map (·.deletions)).sum
        active_repositories := (commits.map (·.repo_name)).dedup.length
        most_active_repo := (maxByAdditions commits).map (·.repo_name) }
    technical_skills := skills
    repository_analysis := repos
    collaboration_metrics := collaboration
    learning_recommendations := generateLearningRecommendations skills }

/-- Truthiness of an optional environment string: `os.getenv` returns
`None` when unset, and an empty string is also falsy. -/
def envTruthy : Option String → Bool
  | none => false
  | some s => !s.isEmpty

/-- The environment and external-world facts that decide the control flow
of `main`: the `OPENAI_API_KEY` value, the `ANALYSIS_MONTHS` value (a set
value is fed to `int(...)` before the credential check and outside the
`try`, so a non-numeric value raises an uncaught `ValueError`; unset
falls back to the integer default 12), the outcome of the profile fetch
(`Except.error` when `get_user_profile` itself raises, for instance the
rate-limit-header `ValueError` that `_make_request` can raise;
`Except.ok none` when it returns `None`; `Except.ok (some j)` when it
returns a body), and whether any later pipeline step raises. -/
structure MainEnv where
  openaiApiKey : Option String
  analysisMonths : Option String
  profileFetch : Except PyExn (Option PyJson)
  laterStepRaises : Bool

/-- Does `int(os.getenv('ANALYSIS_MONTHS', 12))` succeed: the unset
default 12 converts trivially, a set value must parse as an integer. -/
def envMonthsOk : Option String → Bool
  | none => true
  | some s => pyIntParses s

/-- How one run of `main` ends: an ordinary `return` (the missing-key
early return, the missing-profile early return inside `try`, or the
successful end of the pipeline), or an exception re-raised by the
`except` clause and propagated out of `asyncio.run`. -/
inductive MainOutcome where
  | returnedNormally
  | raisedException
  deriving DecidableEq, Repr

/-- Truthiness of the fetched profile as `if not profile` tests it. -/
def profileTruthy : Option PyJson → Bool
  | none => false
  | some j => j.truthy

/-- Embedding of the control flow of `main`: returns the outcome together
with whether any network request was issued.  The `ANALYSIS_MONTHS`
conversion runs first, before the credential check and outside the `try`,
so its `ValueError` terminates abnormally with no network call.  Missing
`OPENAI_API_KEY` then takes the early `return` before any analyzer runs.
Inside the `try`, an exception raised by the profile fetch itself is
caught by `except Exception`, logged and re-raised; a falsy fetched
profile logs an error and takes the `return`; any later exception is
likewise logged and re-raised. -/
def mainRun (env : MainEnv) : MainOutcome × Bool :=
  if !envMonthsOk env.analysisMonths then (.raisedException, false)
  else if !envTruthy env.openaiApiKey then (.returnedNormally, false)
  else
    match env.profileFetch with
    | .error _ => (.raisedException, true)
    | .ok p =>
      if !profileTruthy p then (.returnedNormally, true)
      else if env.laterStepRaises then (.raisedException, true)
      else (.returnedNormally, true)

/-- Process exit code of `asyncio.run(main())` at the bottom of the
script: a normal return of `main` ends the interpreter with status 0; an
exception propagating out of `asyncio.run` ends it abnormally with a
non-zero status. -/
def mainExitCode : MainOutcome → Nat
  | .returnedNormally => 0
  | .raisedException => 1

/-! ## Claim theorems -/

/-- C1 counterexample: a 200 response whose `X-RateLimit-Remaining` header
is present but not numeric makes `int(...)` raise an uncaught
`ValueError`, so an exception does escape `_make_request`. -/
theorem makeRequest_header_valueError :
    makeRequest (.response
      { statusOk := true
        rateLimitRemaining := some "unknown"
        rateLimitReset := none
        body := some (PyJson.obj []) }) = .error .valueError := rfl

/-- A numeric but astronomically large `X-RateLimit-Reset` header,
combined with a remaining quota below 10, drives `datetime.fromtimestamp`
out of range: the `OverflowError`/`ValueError` escapes `_make_request`
uncaught, even though both headers are numeric strings. -/
lemma makeRequest_fromtimestamp_out_of_range :
    makeRequest (.response
      { statusOk := true
        rateLimitRemaining := some "5"
        rateLimitReset := some "99999999999999999999"
        body := some (PyJson.obj []) }) = .error .overflowError := rfl

/-- C1 (amended): `_make_request` yields `None` on transport failure and
non-2xx status and yields the decoded body on success; a malformed JSON
body is `body = none`, absorbed to `None`.  No exception escapes provided
every rate-limit header present converts under `int(...)` AND either the
converted remaining quota is at least 10 or the converted reset timestamp
is one `datetime.fromtimestamp` accepts.  Outside those provisos an
exception does escape: a non-numeric header raises `ValueError`, and a
numeric out-of-range reset with remaining below 10 raises
`OverflowError`/`ValueError` from `fromtimestamp`. -/
theorem makeRequest_absorbs_transport_errors :
    (makeRequest .netError = .ok none) ∧
    (∀ r : HttpResponse, r.statusOk = false → makeRequest (.response r) = .ok none) ∧
    (∀ r : HttpResponse, ∀ remaining resetTime : ℤ, r.statusOk = true →
      headerIntVal r.rateLimitRemaining = some remaining →
      headerIntVal r.rateLimitReset = some resetTime →
      (10 ≤ remaining ∨ fromtimestampOk resetTime = true) →
      makeRequest (.response r) = .ok r.body) ∧
    (∀ g : GetOutcome,
      (∀ r, g = .response r → ∃ remaining resetTime : ℤ,
        headerIntVal r.rateLimitRemaining = some remaining ∧
        headerIntVal r.rateLimitReset = some resetTime ∧
        (10 ≤ remaining ∨ fromtimestampOk resetTime = true)) →
      ∃ v, makeRequest g = .ok v) := by
  have hok : ∀ r : HttpResponse, ∀ remaining resetTime : ℤ, r.statusOk = true →
      headerIntVal r.rateLimitRemaining = some remaining →
      headerIntVal r.rateLimitReset = some resetTime →
      (10 ≤ remaining ∨ fromtimestampOk resetTime = true) →
      makeRequest (.response r) = .ok r.body := by
    intro r remaining resetTime hs h1 h2 hsafe
    show (if !r.statusOk then Except.ok none else _) = Except.ok r.body
    rw [hs]
    simp only [Bool.not_true, Bool.false_eq_true, if_false, h1, h2]
    rcases hsafe with hge | hts
    · rw [if_neg (by omega)]
    · by_cases hlt : remaining < 10
      · rw [if_pos hlt, if_pos hts]
      · rw [if_neg hlt]
  refine ⟨rfl, ?_, hok, ?_⟩
  · intro r h
    simp [makeRequest, h]
  · intro g h
    cases g with
    | netError => exact ⟨none, rfl⟩
    | response r =>
      obtain ⟨remaining, resetTime, h1, h2, hsafe⟩ := h r rfl
      cases hs : r.statusOk with
      | false => exact ⟨none, by simp [makeRequest, hs]⟩
      | true => exact ⟨r.body, hok r remaining resetTime hs h1 h2 hsafe⟩

/-- Witness for the amended C1 theorem at a concrete well-formed
response: both headers convert under `int(...)` and the remaining quota
42 is at least 10. -/
theorem makeRequest_absorbs_transport_errors_witness :
    (headerIntVal (some "42") = some 42 ∧
      headerIntVal (none : Option String) = some 0 ∧ (10:ℤ) ≤ 42) ∧
    (∃ v, makeRequest (.response
      { statusOk := true
        rateLimitRemaining := some "42"
        rateLimitReset := none
        body := some (PyJson.obj []) }) = .ok v) := by
  refine ⟨⟨by decide, rfl, by decide⟩, ?_⟩
  exact makeRequest_absorbs_transport_errors.2.2.2 _
    (by
      intro r h
      cases h
      exact ⟨42, 0, by decide, rfl, Or.inl (by decide)⟩)

/-- C2 counterexample: with `OPENAI_API_KEY` unset (and `ANALYSIS_MONTHS`
unset, so its default 12 converts fine), `main` takes the early `return`,
so the process terminates normally with exit status 0 and no network call
was made - not the non-zero termination the claim states. -/
theorem mainRun_missing_key_exits_zero :
    mainRun
        { openaiApiKey := none
          analysisMonths := none
          profileFetch := .ok (some (PyJson.obj [("login", PyJson.str "u")]))
          laterStepRaises := false } =
      (.returnedNormally, false) ∧
    mainExitCode
        (mainRun
          { openaiApiKey := none
            analysisMonths := none
            profileFetch := .ok (some (PyJson.obj [("login", PyJson.str "u")]))
            laterStepRaises := false }).1 = 0 := ⟨rfl, rfl⟩

/-- C2 (amended): a malformed `ANALYSIS_MONTHS` value terminates the run
abnormally before the credential check and before any network call; with
it well-formed, a missing model-API credential aborts before any network
call with a NORMAL (zero) exit, and a profile fetch that returns falsy
also ends the run with a normal (zero) exit after the request; the
process terminates abnormally (non-zero) exactly when `ANALYSIS_MONTHS`
fails to convert, or when the credential is present and either the
profile fetch itself raises (the exception is re-raised after logging)
or the profile arrives truthy and a later pipeline step raises. -/
theorem mainRun_exit_classification (env : MainEnv) :
    (envMonthsOk env.analysisMonths = false → mainRun env = (.raisedException, false)) ∧
    (envMonthsOk env.analysisMonths = true → envTruthy env.openaiApiKey = false →
      mainRun env = (.returnedNormally, false)) ∧
    (∀ p : Option PyJson, envMonthsOk env.analysisMonths = true →
      envTruthy env.openaiApiKey = true → env.profileFetch = .ok p →
      profileTruthy p = false → mainRun env = (.returnedNormally, true)) ∧
    (mainExitCode (mainRun env).1 ≠ 0 ↔
      (envMonthsOk env.analysisMonths = false ∨
        (envMonthsOk env.analysisMonths = true ∧ envTruthy env.openaiApiKey = true ∧
          (env.profileFetch.isOk = false ∨
            (∃ p, env.profileFetch = .ok p ∧ profileTruthy p = true ∧
              env.laterStepRaises = true))))) := by
  refine ⟨?_, ?_, ?_, ?_⟩
  · intro h
    simp [mainRun, h]
  · intro h1 h2
    simp [mainRun, h1, h2]
  · intro p h1 h2 h3 h4
    simp [mainRun, h1, h2, h3, h4]
  · rcases hpf : env.profileFetch with e | p
    · cases hm : envMonthsOk env.analysisMonths <;>
        cases hk : envTruthy env.openaiApiKey <;>
          simp [mainRun, mainExitCode, hm, hk, hpf, Except.isOk, Except.toBool]
    · cases hm : envMonthsOk env.analysisMonths <;>
        cases hk : envTruthy env.openaiApiKey <;>
          cases hpt : profileTruthy p <;>
            cases hlr : env.laterStepRaises <;>
              simp [mainRun, mainExitCode, hm, hk, hpf, hpt, hlr, Except.isOk,
                Except.toBool]

/-- Witness for the amended C2 theorem: the missing-credential case with
a well-formed months setting exits normally, and a malformed months
setting raises before the credential check. -/
theorem mainRun_exit_classification_witness :
    (envMonthsOk (none : Option String) = true ∧
      envTruthy (none : Option String) = false ∧
      mainRun
        { openaiApiKey := none
          analysisMonths := none
          profileFetch := .ok none
          laterStepRaises := true } = (.returnedNormally, false)) ∧
    (envMonthsOk (some "twelve") = false ∧
      mainRun
        { openaiApiKey := some "k"
          analysisMonths := some "twelve"
          profileFetch := .ok none
          laterStepRaises := false } = (.raisedException, false)) :=
  ⟨⟨rfl, rfl,
    (mainRun_exit_classification
      { openaiApiKey := none, analysisMonths := none,
        profileFetch := .ok none, laterStepRaises := true }).2.1 rfl rfl⟩,
   ⟨by decide,
    (mainRun_exit_classification
      { openaiApiKey := some "k", analysisMonths := some "twelve",
        profileFetch := .ok none, laterStepRaises := false }).1 (by decide)⟩⟩

/-- The collaboration score written out as the closed formula the source
computes, for rewriting. -/
lemma collaborationScore_formula (repos : List RepoInfo) :
    (analyzeCollaborationPatterns repos).collaboration_score =
      min ((((repos.filter (fun r => r.fork)).length : ℚ) * (1/10) +
          ((((repos.filter (fun r => !r.privateDefaultTrue)).length : ℤ) -
            ((repos.filter (fun r => r.fork)).length : ℤ) : ℤ) : ℚ) * (3/10)) /
        (max (repos.length : ℚ) 1)) 1 := rfl

/-- A fork whose `private` key is absent: counted as forked but not
public by the collaboration analyzer. -/
def privateForkRepo : RepoInfo :=
  { name := "f", fork := true, isPrivate := none,
    updatedAt := some "2024-01-01T00:00:00Z" }

/-- A public non-fork repository. -/
def publicOriginalRepo : RepoInfo :=
  { name := "a", fork := false, isPrivate := some false,
    updatedAt := some "2024-01-01T00:00:00Z" }

/-- C3 counterexample: a single repository that is a fork and whose
`private` key is absent (so `r.get('private', True)` counts it as
non-public) gives `originalCount = 0 - 1 = -1` and collaboration score
`min((1*0.1 + (-1)*0.3)/1, 1.0) = -0.2`, outside `[0, 1]` even though the
fork, public and total counts are all non-negative. -/
theorem collaborationScore_negative_on_private_fork :
    (analyzeCollaborationPatterns [privateForkRepo]).collaboration_score = -(1/5) ∧
    (analyzeCollaborationPatterns [privateForkRepo]).collaboration_score < 0 := by
  have he : (analyzeCollaborationPatterns [privateForkRepo]).collaboration_score
      = -(1/5) := by
    rw [collaborationScore_formula]
    rw [show List.filter (fun r => r.fork) [privateForkRepo] = [privateForkRepo] from rfl]
    rw [show List.filter (fun r => !r.privateDefaultTrue) [privateForkRepo] = [] from rfl]
    norm_num [min_def]
  exact ⟨he, by rw [he]; norm_num⟩

/-- C3 (amended): the collaboration score equals 0 on an empty repository
list, and it lies in `[0, 1]` whenever the forked-repository count does
not exceed the public-repository count; when forks outnumber public
repositories (private forks) the score can be negative, as the
counterexample shows. -/
theorem collaborationScore_bounds (repos : List RepoInfo) :
    (repos.length = 0 → (analyzeCollaborationPatterns repos).collaboration_score = 0) ∧
    ((repos.filter (fun r => r.fork)).length ≤
        (repos.filter (fun r => !r.privateDefaultTrue)).length →
      0 ≤ (analyzeCollaborationPatterns repos).collaboration_score ∧
        (analyzeCollaborationPatterns repos).collaboration_score ≤ 1) := by
  constructor
  · intro h
    have h0 : repos = [] := List.length_eq_zero.mp h
    subst h0
    rw [collaborationScore_formula]
    norm_num [min_def]
  · intro h
    rw [collaborationScore_formula]
    constructor
    · have hfp : ((repos.filter (fun r => r.fork)).length : ℚ) ≤
          ((repos.filter (fun r => !r.privateDefaultTrue)).length : ℚ) := by
        exact_mod_cast h
      refine le_min ?_ (by norm_num)
      apply div_nonneg
      · push_cast
        nlinarith [Nat.cast_nonneg (α := ℚ) (repos.filter (fun r => r.fork)).length]
      · exact le_trans zero_le_one (le_max_right _ _)
    · exact min_le_right _ _

/-- Witness for the amended C3 theorem: one public original repository
satisfies the count hypothesis and scores inside the range, and the empty
list scores 0. -/
theorem collaborationScore_bounds_witness :
    (([publicOriginalRepo] : List RepoInfo).filter (fun r => r.fork)).length ≤
      (([publicOriginalRepo] : List RepoInfo).filter
        (fun r => !r.privateDefaultTrue)).length ∧
    (0 ≤ (analyzeCollaborationPatterns [publicOriginalRepo]).collaboration_score ∧
      (analyzeCollaborationPatterns [publicOriginalRepo]).collaboration_score ≤ 1) ∧
    (analyzeCollaborationPatterns ([] : List RepoInfo)).collaboration_score = 0 :=
  ⟨by decide,
   (collaborationScore_bounds _).2 (by decide),
   (collaborationScore_bounds []).1 rfl⟩

/-- C4: the experience tier of a parsed assessment is determined by the
total of the extension-usage tally (the sum the source binds to
`total_commits`) against the fixed thresholds: below 50 Junior, from 50
below 200 Mid-level, from 200 on Senior; in particular a total of exactly
49 gives Junior, 50 gives Mid-level and 200 gives Senior. -/
theorem experienceLevel_thresholds :
    (∀ (analysisText : List Char) (t : Tally),
      (parseAiResponse analysisText t).experience_level = experienceLevelOf t) ∧
    (∀ t : Tally, sumTally t < 50 → experienceLevelOf t = "Junior") ∧
    (∀ t : Tally, 50 ≤ sumTally t → sumTally t < 200 →
      experienceLevelOf t = "Mid-level") ∧
    (∀ t : Tally, 200 ≤ sumTally t → experienceLevelOf t = "Senior") ∧
    experienceLevelOf [("py", 49)] = "Junior" ∧
    experienceLevelOf [("py", 50)] = "Mid-level" ∧
    experienceLevelOf [("py", 200)] = "Senior" := by
  refine ⟨fun _ _ => rfl, ?_, ?_, ?_, rfl, rfl, rfl⟩
  · intro t h
    simp [experienceLevelOf, h]
  · intro t h1 h2
    simp [experienceLevelOf, h2]
    omega
  · intro t h
    have h1 : ¬ sumTally t < 50 := by omega
    have h2 : ¬ sumTally t < 200 := by omega
    simp [experienceLevelOf, h1, h2]

/-- Witness for C4 at the three concrete totals of the scenario. -/
theorem experienceLevel_thresholds_witness :
    (sumTally [("py", 49)] < 50 ∧ experienceLevelOf [("py", 49)] = "Junior") ∧
    (50 ≤ sumTally [("py", 50)] ∧ sumTally [("py", 50)] < 200 ∧
      experienceLevelOf [("py", 50)] = "Mid-level") ∧
    (200 ≤ sumTally [("py", 200)] ∧ experienceLevelOf [("py", 200)] = "Senior") :=
  ⟨⟨by decide, experienceLevel_thresholds.2.1 [("py", 49)] (by decide)⟩,
   ⟨by decide, by decide, experienceLevel_thresholds.2.2.1 [("py", 50)] (by decide) (by decide)⟩,
   ⟨by decide, experienceLevel_thresholds.2.2.2.1 [("py", 200)] (by decide)⟩⟩

/-- C7: the confidence score is the fixed literal 0.8 for every parsed
(model-derived) assessment and the fixed literal 0.3 for every fallback
assessment, independent of the reply text and of the extension tally. -/
theorem confidence_scores_fixed :
    (∀ (analysisText : List Char) (t : Tally),
      (parseAiResponse analysisText t).confidence_score = (0.8 : ℚ)) ∧
    (∀ t : Tally, (createFallbackAssessment t).confidence_score = (0.3 : ℚ)) := by
  constructor
  · intro analysisText t
    show (8 : ℚ)/10 = (0.8 : ℚ)
    norm_num
  · intro t
    show (3 : ℚ)/10 = (0.3 : ℚ)
    norm_num

/-- On a tally already sorted by count descending, the stable descending
sort of `most_common` is the identity. -/
lemma mostCommon_of_sorted {t : Tally} (h : t.Pairwise (fun a b => b.2 ≤ a.2))
    (n : Nat) : mostCommon n t = t.take n := by
  unfold mostCommon
  rw [List.mergeSort_of_sorted]
  exact h.imp (fun hab => decide_eq_true hab)

/-- `most_common` of the empty counter is empty. -/
lemma mostCommon_nil (n : Nat) : mostCommon n ([] : Tally) = [] := by
  simp [mostCommon]

/-- C10: the specializations of a parsed assessment are the raw top-3
`(extension, count)` pairs of the tally, those of the fallback assessment
the raw top-2 pairs, with no denylist filtering; concretely, a tally
whose only key is the denylisted `md` yields `md` as a specialization
while the technical-skills mapping omits it. -/
theorem specializations_raw_most_common :
    (∀ (analysisText : List Char) (t : Tally),
      (parseAiResponse analysisText t).specializations = mostCommon 3 t) ∧
    (∀ t : Tally, (createFallbackAssessment t).specializations = mostCommon 2 t) ∧
    (parseAiResponse [] [("md", 5)]).specializations = [("md", 5)] ∧
    (parseAiResponse [] [("md", 5)]).technical_skills = [] := by
  refine ⟨fun _ _ => rfl, fun _ => rfl, ?_, ?_⟩
  · show mostCommon 3 [("md", 5)] = [("md", 5)]
    rw [mostCommon_of_sorted (by simp)]
    rfl
  · show parseTechnicalSkills [("md", 5)] = []
    unfold parseTechnicalSkills
    rw [mostCommon_of_sorted (by simp)]
    decide

/-- C9: with an empty commit list, the generated report has a null
most-active repository, zero commit/addition/deletion/repository totals,
and a present-but-empty technical-skills table, whether the skill
assessment came from the parsed model reply or from the fallback (both
applied to the extension tally of the empty commit set). -/
theorem empty_commit_report (username analysisDate : String) (profile : PyJson)
    (repos : List RepositoryData) (collab : CollaborationData)
    (analysisText : List Char) :
    ((generateJsonReport username analysisDate profile [] repos collab
        (parseAiResponse analysisText (languageUsageOf []))).activity_summary =
      { total_commits := 0, total_additions := 0, total_deletions := 0,
        active_repositories := 0, most_active_repo := none }) ∧
    ((generateJsonReport username analysisDate profile [] repos collab
        (parseAiResponse analysisText
          (languageUsageOf []))).technical_skills.technical_skills = []) ∧
    ((generateJsonReport username analysisDate profile [] repos collab
        (createFallbackAssessment (languageUsageOf []))).activity_summary =
      { total_commits := 0, total_additions := 0, total_deletions := 0,
        active_repositories := 0, most_active_repo := none }) ∧
    ((generateJsonReport username analysisDate profile [] repos collab
        (createFallbackAssessment
          (languageUsageOf []))).technical_skills.technical_skills = []) := by
  refine ⟨rfl, ?_, rfl, ?_⟩
  · show parseTechnicalSkills (languageUsageOf []) = []
    show parseTechnicalSkills [] = []
    unfold parseTechnicalSkills
    rw [mostCommon_nil]
    rfl
  · show (mostCommon 5 (languageUsageOf [])).map _ = []
    show (mostCommon 5 []).map _ = []
    rw [mostCommon_nil]
    rfl

/-- The README score is exactly 0.2 per satisfied condition: the running
sum reaches `condCount * 0.2 ≤ 1`, so the final `min(score, 1.0)` never
truncates. -/
lemma scoreReadme_eq_condCount (c : List Char) :
    scoreReadmeQuality c = (readmeCondCount c : ℚ) * (2/10) := by
  by_cases h0 : c.isEmpty = true
  · have hc : c = [] := List.isEmpty_iff.mp h0
    subst hc
    have h1 : readmeLongEnough [] = false := rfl
    have h2 : readmeHasInstall [] = false := rfl
    have h3 : readmeHasUsage [] = false := rfl
    have h4 : readmeHasCodeBlock [] = false := rfl
    have h5 : readmeHasSections [] = false := rfl
    simp [scoreReadmeQuality, readmeCondCount, h1, h2, h3, h4, h5]
  · unfold scoreReadmeQuality readmeCondCount
    rw [if_neg h0]
    by_cases h1 : readmeLongEnough c <;>
      by_cases h2 : readmeHasInstall c <;>
        by_cases h3 : readmeHasUsage c <;>
          by_cases h4 : readmeHasCodeBlock c <;>
            by_cases h5 : readmeHasSections c <;>
              simp only [h1, h2, h3, h4, h5, if_true, if_false] <;>
                rw [min_eq_left (by norm_num)] <;> norm_num

/-- The number of satisfied README conditions is at most five. -/
lemma readmeCondCount_le_five (c : List Char) : readmeCondCount c ≤ 5 := by
  unfold readmeCondCount
  split_ifs <;> omega

/-- A 600-character README: 571 spaces of padding followed by 4 heading
markers, a fenced code block marker, the word installation and the word
example. -/
def exampleReadme : List Char :=
  List.replicate 571 ' ' ++ "#### ```installation example".toList

set_option maxRecDepth 100000 in
/-- C6: the documentation score is 0.2 times the number of satisfied
conditions (so each single condition on otherwise-empty content adds
exactly 0.2), never exceeds 1.0, is 0.0 for empty content, is monotone in
the five conditions, and the concrete 600-character README with the words
installation and example, a fenced code block and 4 headings scores
exactly 1.0. -/
theorem readme_score_monotone_capped :
    (∀ c : List Char, scoreReadmeQuality c = (readmeCondCount c : ℚ) * (2/10)) ∧
    (∀ c : List Char, scoreReadmeQuality c ≤ 1) ∧
    (scoreReadmeQuality [] = 0) ∧
    (∀ c : List Char, readmeCondCount c = 1 → scoreReadmeQuality c = 2/10) ∧
    (∀ c₁ c₂ : List Char,
      (readmeLongEnough c₁ = true → readmeLongEnough c₂ = true) →
      (readmeHasInstall c₁ = true → readmeHasInstall c₂ = true) →
      (readmeHasUsage c₁ = true → readmeHasUsage c₂ = true) →
      (readmeHasCodeBlock c₁ = true → readmeHasCodeBlock c₂ = true) →
      (readmeHasSections c₁ = true → readmeHasSections c₂ = true) →
      scoreReadmeQuality c₁ ≤ scoreReadmeQuality c₂) ∧
    (scoreReadmeQuality exampleReadme = 1) := by
  refine ⟨scoreReadme_eq_condCount, ?_, ?_, ?_, ?_, ?_⟩
  · intro c
    rw [scoreReadme_eq_condCount]
    have h : (readmeCondCount c : ℚ) ≤ 5 := by
      exact_mod_cast readmeCondCount_le_five c
    linarith
  · rw [scoreReadme_eq_condCount]
    rw [show readmeCondCount [] = 0 from rfl]
    norm_num
  · intro c h
    rw [scoreReadme_eq_condCount, h]
    norm_num
  · intro c₁ c₂ h1 h2 h3 h4 h5
    rw [scoreReadme_eq_condCount, scoreReadme_eq_condCount]
    have hcc : readmeCondCount c₁ ≤ readmeCondCount c₂ := by
      unfold readmeCondCount
      have g1 : (if readmeLongEnough c₁ then 1 else 0) ≤
          (if readmeLongEnough c₂ then (1:ℕ) else 0) := by
        cases hb : readmeLongEnough c₁
        · simp
        · simp [h1 hb]
      have g2 : (if readmeHasInstall c₁ then 1 else 0) ≤
          (if readmeHasInstall c₂ then (1:ℕ) else 0) := by
        cases hb : readmeHasInstall c₁
        · simp
        · simp [h2 hb]
      have g3 : (if readmeHasUsage c₁ then 1 else 0) ≤
          (if readmeHasUsage c₂ then (1:ℕ) else 0) := by
        cases hb : readmeHasUsage c₁
        · simp
        · simp [h3 hb]
      have g4 : (if readmeHasCodeBlock c₁ then 1 else 0) ≤
          (if readmeHasCodeBlock c₂ then (1:ℕ) else 0) := by
        cases hb : readmeHasCodeBlock c₁
        · simp
        · simp [h4 hb]
      have g5 : (if readmeHasSections c₁ then 1 else 0) ≤
          (if readmeHasSections c₂ then (1:ℕ) else 0) := by
        cases hb : readmeHasSections c₁
        · simp
        · simp [h5 hb]
      omega
    have hq : (readmeCondCount c₁ : ℚ) ≤ (readmeCondCount c₂ : ℚ) := by
      exact_mod_cast hcc
    linarith
  · rw [scoreReadme_eq_condCount]
    rw [show readmeCondCount exampleReadme = 5 from by decide]
    norm_num

/-- Witness for C6: the content consisting of the single word setup
satisfies exactly one condition and scores exactly 0.2. -/
theorem readme_score_monotone_capped_witness :
    readmeCondCount "setup".toList = 1 ∧
      scoreReadmeQuality "setup".toList = 2/10 :=
  ⟨by decide, readme_score_monotone_capped.2.2.2.1 "setup".toList (by decide)⟩

/-- A skip-or-append left fold is a `filterMap`. -/
lemma foldl_skip_append_eq_filterMap {α β : Type} (c : α → Bool) (g : α → β)
    (l : List α) : ∀ acc : List β,
    l.foldl (fun a x => if c x then a else a ++ [g x]) acc =
      acc ++ l.filterMap (fun x => if c x then none else some (g x)) := by
  induction l with
  | nil => intro acc; simp
  | cons x xs ih =>
    intro acc
    by_cases hc : c x = true <;>
      simp [List.foldl_cons, List.filterMap_cons, hc, ih]

/-- The comparison used by the descending count sort is transitive. -/
lemma tallyLe_trans (a b c : String × Nat) :
    decide (b.2 ≤ a.2) = true → decide (c.2 ≤ b.2) = true →
      decide (c.2 ≤ a.2) = true := by
  intro hab hbc
  exact decide_eq_true (le_trans (of_decide_eq_true hbc) (of_decide_eq_true hab))

/-- The comparison used by the descending count sort is total. -/
lemma tallyLe_total (a b : String × Nat) :
    (decide (b.2 ≤ a.2) || decide (a.2 ≤ b.2)) = true := by
  rcases le_total a.2 b.2 with h | h <;> simp [h]

/-- Every entry `most_common(10)` yields has a count bounded by
`most_common(1)[0][1]`, the count of the head of the descending sort. -/
lemma mem_mostCommon_count_le (t : Tally) {p : String × Nat}
    (hp : p ∈ mostCommon 10 t) : p.2 ≤ maxCount t := by
  have hpS : p ∈ t.mergeSort (fun a b => decide (b.2 ≤ a.2)) :=
    List.mem_of_mem_take hp
  have hpw : (t.mergeSort (fun a b => decide (b.2 ≤ a.2))).Pairwise
      (fun a b => decide (b.2 ≤ a.2)) :=
    List.sorted_mergeSort tallyLe_trans tallyLe_total t
  cases hS : t.mergeSort (fun a b => decide (b.2 ≤ a.2)) with
  | nil => rw [hS] at hpS; simp at hpS
  | cons hd rest =>
    have hmax : maxCount t = hd.2 := by
      unfold maxCount mostCommon
      rw [hS]
      rfl
    rw [hS] at hpS hpw
    rw [hmax]
    rcases List.mem_cons.mp hpS with rfl | hmem
    · exact le_refl _
    · exact of_decide_eq_true (List.rel_of_pairwise_cons hpw hmem)

/-- C8: for every extension tally with positive counts, the
technical-skills mapping of a parsed assessment contains no denylisted
extension, and each kept entry of the top-10 is scored
`round(count / maxCount * 10, 1)` (the `min(10, ...)` cap never binds
because no count exceeds the maximum); concretely, with `md` most
frequent the mapping contains only the non-denylisted `py`, scored
`round(1/100*10, 1) = 0.1`. -/
theorem technicalSkills_denylist_excluded (analysisText : List Char) (t : Tally)
    (hpos : ∀ p ∈ t, 0 < p.2) :
    (∀ p ∈ (parseAiResponse analysisText t).technical_skills,
      excludedExtensions.contains (pyLower p.1) = false) ∧
    ((parseAiResponse analysisText t).technical_skills =
      (mostCommon 10 t).filterMap (fun p =>
        if excludedExtensions.contains (pyLower p.1) then none
        else some (p.1, pyRound1 ((p.2 : ℚ) / (maxCount t : ℚ) * 10)))) ∧
    ((parseAiResponse [] [("md", 100), ("py", 1)]).technical_skills =
      [("py", 1/10)]) := by
  have heq1 : (parseAiResponse analysisText t).technical_skills =
      (mostCommon 10 t).filterMap (fun p =>
        if excludedExtensions.contains (pyLower p.1) then none
        else some (p.1, pyRound1 (min 10 ((p.2 : ℚ) / (maxCount t : ℚ) * 10)))) := by
    show parseTechnicalSkills t = _
    unfold parseTechnicalSkills
    rw [foldl_skip_append_eq_filterMap
      (fun p => excludedExtensions.contains (pyLower p.1))
      (fun p => (p.1, pyRound1 (min 10 ((p.2 : ℚ) / (maxCount t : ℚ) * 10))))
      (mostCommon 10 t) []]
    simp
  have hmin : ∀ p ∈ mostCommon 10 t,
      min (10:ℚ) ((p.2 : ℚ) / (maxCount t : ℚ) * 10) =
        (p.2 : ℚ) / (maxCount t : ℚ) * 10 := by
    intro p hp
    have hle : p.2 ≤ maxCount t := mem_mostCommon_count_le t hp
    have hratio : ((p.2 : ℚ)) / ((maxCount t : ℕ) : ℚ) ≤ 1 := by
      rcases Nat.eq_zero_or_pos (maxCount t) with hz | hposm
      · have h0 : p.2 = 0 := by omega
        simp [h0]
      · rw [div_le_one (by exact_mod_cast hposm)]
        exact_mod_cast hle
    exact min_eq_right (by nlinarith)
  have heq2 : (parseAiResponse analysisText t).technical_skills =
      (mostCommon 10 t).filterMap (fun p =>
        if excludedExtensions.contains (pyLower p.1) then none
        else some (p.1, pyRound1 ((p.2 : ℚ) / (maxCount t : ℚ) * 10))) := by
    rw [heq1]
    apply List.filterMap_congr
    intro p hp
    rw [hmin p hp]
  refine ⟨?_, heq2, ?_⟩
  · intro p hp
    rw [heq2] at hp
    obtain ⟨a, ha, hfa⟩ := List.mem_filterMap.mp hp
    by_cases hc : excludedExtensions.contains (pyLower a.1) = true
    · rw [if_pos hc] at hfa
      cases hfa
    · rw [if_neg hc] at hfa
      cases hfa
      simpa using hc
  · show parseTechnicalSkills [("md", 100), ("py", 1)] = [("py", 1/10)]
    have hsorted : ([("md", 100), ("py", 1)] : Tally).Pairwise
        (fun a b => b.2 ≤ a.2) := by decide
    have hmax : maxCount [("md", 100), ("py", 1)] = 100 := by
      unfold maxCount
      rw [mostCommon_of_sorted hsorted]
      rfl
    unfold parseTechnicalSkills
    rw [mostCommon_of_sorted hsorted, hmax]
    rw [show List.take 10 ([("md", 100), ("py", 1)] : Tally) =
      [("md", 100), ("py", 1)] from rfl]
    simp only [List.foldl_cons, List.foldl_nil]
    rw [if_pos (show excludedExtensions.contains (pyLower "md") = true from rfl)]
    rw [if_neg (show ¬ excludedExtensions.contains (pyLower "py") = true from
      fun h => by cases h)]
    have harg : ((1:ℕ) : ℚ) / ((100:ℕ) : ℚ) * 10 = 1/10 := by norm_num
    rw [show pyRound1 (min 10 (((1:ℕ) : ℚ) / ((100:ℕ) : ℚ) * 10)) = 1/10 from by
      rw [harg, min_eq_right (by norm_num)]
      unfold pyRound1 roundHalfEven
      norm_num]
    rfl

/-- Witness for C8: at the tally where the denylisted `md` is most
frequent, the positivity hypothesis holds and the kept entry `py` is not
denylisted. -/
theorem technicalSkills_denylist_excluded_witness :
    excludedExtensions.contains (pyLower ("py", (1:ℚ)/10).1) = false := by
  have h := technicalSkills_denylist_excluded [] [("md", 100), ("py", 1)]
    (by decide)
  exact h.1 ("py", 1/10) (by rw [h.2.2]; exact List.mem_singleton.mpr rfl)

/-- The descending update-key comparison is transitive. -/
lemma repoLe_trans (a b c : RepoInfo) :
    decide (b.updateKey ≤ a.updateKey) = true →
    decide (c.updateKey ≤ b.updateKey) = true →
    decide (c.updateKey ≤ a.updateKey) = true := by
  intro hab hbc
  exact decide_eq_true (le_trans (of_decide_eq_true hbc) (of_decide_eq_true hab))

/-- The descending update-key comparison is total. -/
lemma repoLe_total (a b : RepoInfo) :
    (decide (b.updateKey ≤ a.updateKey) || decide (a.updateKey ≤ b.updateKey)) = true := by
  rcases le_total a.updateKey b.updateKey with h | h <;> simp [h]

/-- C5: the selected repositories number at most 20, are in descending
update-time order, all carry an update timestamp, and entries with equal
keys keep their original relative order (the selection filtered to any
one key value is a sublist of the original list filtered to that key). -/
theorem selectActive_spec (repos : List RepoInfo) :
    (selectActiveRepositories repos).length ≤ 20 ∧
    (selectActiveRepositories repos).Pairwise
      (fun a b => b.updateKey ≤ a.updateKey) ∧
    (∀ r ∈ selectActiveRepositories repos, r.hasUpdatedAt = true) ∧
    (∀ k : String,
      List.Sublist
        ((selectActiveRepositories repos).filter (fun r => decide (r.updateKey = k)))
        (repos.filter (fun r => r.hasUpdatedAt && decide (r.updateKey = k)))) := by
  refine ⟨List.length_take_le 20 _, ?_, ?_, ?_⟩
  · have h := List.sorted_mergeSort repoLe_trans repoLe_total
      (repos.filter RepoInfo.hasUpdatedAt)
    exact (List.Pairwise.sublist (List.take_sublist 20 _) h).imp
      (fun hab => of_decide_eq_true hab)
  · intro r hr
    have h1 : r ∈ (repos.filter RepoInfo.hasUpdatedAt).mergeSort
        (fun a b => decide (b.updateKey ≤ a.updateKey)) :=
      List.mem_of_mem_take hr
    rw [List.mem_mergeSort] at h1
    exact (List.mem_filter.mp h1).2
  · intro k
    have hkey : (repos.filter RepoInfo.hasUpdatedAt).filter
        (fun r => decide (r.updateKey = k)) =
        repos.filter (fun r => r.hasUpdatedAt && decide (r.updateKey = k)) := by
      rw [List.filter_filter]
      apply List.filter_congr
      intro x _
      exact Bool.and_comm _ _
    have hBpw : ((repos.filter RepoInfo.hasUpdatedAt).filter
        (fun r => decide (r.updateKey = k))).Pairwise
        (fun a b => decide (b.updateKey ≤ a.updateKey)) := by
      apply List.pairwise_of_forall_mem_list
      intro a ha b hb
      have hak : a.updateKey = k := of_decide_eq_true (List.mem_filter.mp ha).2
      have hbk : b.updateKey = k := of_decide_eq_true (List.mem_filter.mp hb).2
      exact decide_eq_true (by rw [hak, hbk])
    have h1 : List.Sublist
        ((repos.filter RepoInfo.hasUpdatedAt).filter
          (fun r => decide (r.updateKey = k)))
        ((repos.filter RepoInfo.hasUpdatedAt).mergeSort
          (fun a b => decide (b.updateKey ≤ a.updateKey))) :=
      List.sublist_mergeSort repoLe_trans repoLe_total hBpw (List.filter_sublist _)
    have h2 := h1.filter (fun r => decide (r.updateKey = k))
    rw [List.filter_filter] at h2
    rw [show (fun a : RepoInfo => decide (a.updateKey = k) && decide (a.updateKey = k)) =
      (fun a : RepoInfo => decide (a.updateKey = k)) from
      funext (fun a => Bool.and_self _)] at h2
    have hperm : List.Perm
        (((repos.filter RepoInfo.hasUpdatedAt).mergeSort
          (fun a b => decide (b.updateKey ≤ a.updateKey))).filter
          (fun r => decide (r.updateKey = k)))
        ((repos.filter RepoInfo.hasUpdatedAt).filter
          (fun r => decide (r.updateKey = k))) :=
      (List.mergeSort_perm (repos.filter RepoInfo.hasUpdatedAt) _).filter _
    have heq : (repos.filter RepoInfo.hasUpdatedAt).filter
        (fun r => decide (r.updateKey = k)) =
        ((repos.filter RepoInfo.hasUpdatedAt).mergeSort
          (fun a b => decide (b.updateKey ≤ a.updateKey))).filter
          (fun r => decide (r.updateKey = k)) :=
      h2.eq_of_length hperm.length_eq.symm
    have hgoal : List.Sublist
        ((selectActiveRepositories repos).filter
          (fun r => decide (r.updateKey = k)))
        (((repos.filter RepoInfo.hasUpdatedAt).mergeSort
          (fun a b => decide (b.updateKey ≤ a.updateKey))).filter
          (fun r => decide (r.updateKey = k))) :=
      (List.take_sublist 20 _).filter _
    rw [← heq, hkey] at hgoal
    exact hgoal

/-- Witness for C5 at the one-repository list: the repository is selected
and carries an update timestamp. -/
theorem selectActive_spec_witness :
    publicOriginalRepo ∈ selectActiveRepositories [publicOriginalRepo] ∧
    publicOriginalRepo.hasUpdatedAt = true := by
  have hsel : selectActiveRepositories [publicOriginalRepo] = [publicOriginalRepo] := by
    unfold selectActiveRepositories
    rw [show List.filter RepoInfo.hasUpdatedAt [publicOriginalRepo] =
      [publicOriginalRepo] from rfl]
    rw [List.mergeSort_singleton]
    rfl
  have hmem : publicOriginalRepo ∈ selectActiveRepositories [publicOriginalRepo] := by
    rw [hsel]
    exact List.mem_singleton.mpr rfl
  exact ⟨hmem, (selectActive_spec [publicOriginalRepo]).2.2.1 publicOriginalRepo hmem⟩
